import Mathlib

/-!
Shallow embedding of the Skate Canada PDF extraction engine
(`src/data_extraction/skate_canada/pdf_extraction.py`) and proofs about it.

Text is modelled as `String` / `List Char`; the two compiled date regexes
are modelled by an executable backtracking matcher; pandas DataFrames are
modelled as a list of column labels plus a list of rows of string cells.
-/

set_option maxRecDepth 8000

/-! ## Basic character/string utilities -/

/-- Whitespace class of Python's regex `\s` and of `str.strip` (ASCII part). -/
def pyIsSpace (c : Char) : Bool :=
  c = ' ' || c = '\t' || c = '\n' || c = '\r' || c = '\x0B' || c = '\x0C'

/-- Word character, as in the regex `\b` boundary test (`[A-Za-z0-9_]`). -/
def isWordChar (c : Char) : Bool := c.isAlphanum || c = '_'

/-- Python's `needle in hay` substring test. -/
def strContains (hay needle : String) : Bool :=
  (List.range (hay.toList.length + 1)).any
    (fun i => needle.toList.isPrefixOf (hay.toList.drop i))

/-- Strip leading and trailing whitespace from a character list. -/
def pyStripChars (l : List Char) : List Char :=
  ((l.dropWhile pyIsSpace).reverse.dropWhile pyIsSpace).reverse

/-- Python `str.strip()`. -/
def pyStrip (s : String) : String := String.mk (pyStripChars s.toList)

/-- Split a character list at newline characters (Python `split('\n')`:
empty pieces are kept, the empty list yields one empty piece). -/
def splitNl : List Char → List (List Char)
  | [] => [[]]
  | c :: r =>
    if c = '\n' then [] :: splitNl r
    else
      match splitNl r with
      | h :: t => (c :: h) :: t
      | [] => [[c]]

/-! ## Backtracking regex matcher

A `Matcher` consumes a prefix of the input and returns every possible
remainder (backtracking is the list of alternatives). -/

abbrev Matcher := List Char → List (List Char)

def mchar (c : Char) : Matcher := fun s =>
  match s with
  | [] => []
  | a :: r => if a = c then [r] else []

def mpred (p : Char → Bool) : Matcher := fun s =>
  match s with
  | [] => []
  | a :: r => if p a then [r] else []

def mstr (t : String) : Matcher := fun s =>
  if t.toList.isPrefixOf s then [s.drop t.toList.length] else []

def mseq (m1 m2 : Matcher) : Matcher := fun s => (m1 s).flatMap m2

def malt (m1 m2 : Matcher) : Matcher := fun s => m1 s ++ m2 s

def mopt (m : Matcher) : Matcher := fun s => m s ++ [s]

def mdigit : Matcher := mpred Char.isDigit

/-- `\d{1,2}` (greedy two digits, backtracking to one). -/
def mdigit12 : Matcher := malt (mseq mdigit mdigit) mdigit

/-- `\d{4}`. -/
def mdigit4 : Matcher := mseq mdigit (mseq mdigit (mseq mdigit mdigit))

/-- `\s`. -/
def mspace : Matcher := mpred pyIsSpace

/-- The month alternation
`Jan(?:uary)?|Feb(?:ruary)?|Mar(?:ch)?|Apr(?:il)?|May|Jun(?:e)?|Jul(?:y)?|Aug(?:ust)?|Sep(?:tember)?|Oct(?:ober)?|Nov(?:ember)?|Dec(?:ember)?`. -/
def monthAlt : Matcher :=
  malt (mseq (mstr "Jan") (mopt (mstr "uary")))
  (malt (mseq (mstr "Feb") (mopt (mstr "ruary")))
  (malt (mseq (mstr "Mar") (mopt (mstr "ch")))
  (malt (mseq (mstr "Apr") (mopt (mstr "il")))
  (malt (mstr "May")
  (malt (mseq (mstr "Jun") (mopt (mstr "e")))
  (malt (mseq (mstr "Jul") (mopt (mstr "y")))
  (malt (mseq (mstr "Aug") (mopt (mstr "ust")))
  (malt (mseq (mstr "Sep") (mopt (mstr "tember")))
  (malt (mseq (mstr "Oct") (mopt (mstr "ober")))
  (malt (mseq (mstr "Nov") (mopt (mstr "ember")))
        (mseq (mstr "Dec") (mopt (mstr "ember")))))))))))))

/-- Body of the first date regex (after the leading `\b`):
`MONTH\s\d{1,2}-?\s?(?:to|-)?\s?MONTH?\s?\d{1,2},?\s\d{4}`. -/
def datePattern1core : Matcher :=
  mseq monthAlt (mseq mspace (mseq mdigit12 (mseq (mopt (mchar '-'))
    (mseq (mopt mspace) (mseq (mopt (malt (mstr "to") (mchar '-')))
    (mseq (mopt mspace) (mseq (mopt monthAlt) (mseq (mopt mspace)
    (mseq mdigit12 (mseq (mopt (mchar ',')) (mseq mspace mdigit4)))))))))))

/-- The character class dash-or-slash from the numeric date regex. -/
def mdashslash : Matcher := malt (mchar '-') (mchar '/')

/-- One numeric date: two `\d{1,2}` groups and a `\d{4}` group separated by
dash-or-slash. -/
def dateNum : Matcher :=
  mseq mdigit12 (mseq mdashslash (mseq mdigit12 (mseq mdashslash mdigit4)))

/-- Body of the second date regex (between the two `\b`): a numeric date,
`\s?(?:to|-)\s?`, and a second numeric date. -/
def datePattern2core : Matcher :=
  mseq dateNum (mseq (mopt mspace)
    (mseq (malt (mstr "to") (mchar '-')) (mseq (mopt mspace) dateNum)))

/-- `\b` holds before position `i` when `i = 0` or the previous character is
not a word character (both regexes continue with a word character, so this is
the whole boundary condition). -/
def boundaryBefore (s : List Char) (i : Nat) : Bool :=
  match i with
  | 0 => true
  | j + 1 =>
    match s.get? j with
    | some c => !(isWordChar c)
    | none => true

/-- Trailing `\b` after a digit: the remainder starts with a non-word
character or is empty. -/
def boundaryAfter (r : List Char) : Bool :=
  match r with
  | [] => true
  | c :: _ => !(isWordChar c)

/-- `re.search` with the first date pattern. -/
def datePattern1Search (s : List Char) : Bool :=
  (List.range (s.length + 1)).any
    (fun i => boundaryBefore s i && !(datePattern1core (s.drop i)).isEmpty)

/-- `re.search` with the second date pattern. -/
def datePattern2Search (s : List Char) : Bool :=
  (List.range (s.length + 1)).any
    (fun i => boundaryBefore s i && (datePattern2core (s.drop i)).any boundaryAfter)

/-- A line matches one of the two `date_patterns`. -/
def lineMatchesDate (line : String) : Bool :=
  datePattern1Search line.toList || datePattern2Search line.toList

/-! ## Date-line locator and document classifier -/

/-- `text.strip().split('\n')`. -/
def splitLines (text : String) : List String :=
  (splitNl (pyStripChars text.toList)).map String.mk

/-- `find_competition_date_line`: first of the first 10 lines matching a
date pattern, else `None`. -/
def find_competition_date_line (text : String) : Option String :=
  ((splitLines text).take 10).find? lineMatchesDate

/-- `infer_document_type`: keyword tests in fixed priority order. -/
def infer_document_type (text : String) : String :=
  if strContains text "Officials List" then "Officials List"
  else if strContains text "Starting Order" then "Starting Order"
  else if strContains text "Category Result Summary" then "Category Result Summary"
  else if strContains text "Element Score" || strContains text "Deductions" then "Detail Sheets"
  else "Unknown"

/-! ## Header assembly -/

/-- Python list indexing `l[i]` (negative indices count from the end;
`none` models `IndexError`). -/
def pyGetStr (l : List String) (i : Int) : Option String :=
  if 0 ≤ i then l[i.toNat]?
  else if (-i).toNat ≤ l.length then l[l.length - (-i).toNat]?
  else none

/-- Python slicing `l[:j]` (negative `j` counts from the end, clipped at 0). -/
def pySliceTo (l : List String) (j : Int) : List String :=
  if j < 0 then l.take (l.length - (-j).toNat) else l.take j.toNat

/-- Python `lines.index(x) if x in lines else -1`. -/
def pyListIndex (l : List String) (x : String) : Int :=
  match l.findIdx? (fun y => y == x) with
  | some i => (i : Int)
  | none => -1

/-- The five-key header mapping built by the extraction functions. -/
structure HeaderInfo where
  competitionName : String
  location : String
  dateRange : String
  event : String
  documentType : String
  deriving DecidableEq, Repr

/-- Possible outcomes of `extract_header_info`: the implicit `None`
fall-through, the empty dict `{}` from the guard, a populated header dict,
or an `IndexError` escaping from a line access. -/
inductive HeaderResult where
  | pyNone : HeaderResult
  | empty : HeaderResult
  | record : HeaderInfo → HeaderResult
  | indexError : HeaderResult
  deriving DecidableEq, Repr

/-- `extract_event_sheets_header_info` (date-line-anchored layout);
`none` models an `IndexError` from one of the three line accesses. -/
def extract_event_sheets_header_info (lines : List String) (document_type : String)
    (date_line_index : Int) : Option HeaderInfo :=
  match pyGetStr lines (date_line_index - 1), pyGetStr lines date_line_index,
        pyGetStr lines (date_line_index + 1) with
  | some loc, some dr, some ev =>
    some { competitionName := pyStrip (String.intercalate " " (pySliceTo lines (date_line_index - 1))),
           location := pyStrip loc
           dateRange := pyStrip dr
           event := pyStrip ev
           documentType := document_type }
  | _, _, _ => none

/-- `extract_detail_sheets_header_info` (fixed positional layout);
`none` models an `IndexError`. -/
def extract_detail_sheets_header_info (lines : List String)
    (document_type : String) : Option HeaderInfo :=
  match pyGetStr lines 0, pyGetStr lines 1, pyGetStr lines 2, pyGetStr lines 3 with
  | some l0, some l1, some l2, some l3 =>
    some { competitionName := pyStrip l0
           location := pyStrip l2
           dateRange := pyStrip l1
           event := pyStrip l3
           documentType := document_type }
  | _, _, _, _ => none

/-- `date_line_index = lines.index(date_line) if date_line in lines else -1`
(with `date_line = find_competition_date_line(text)`; `None` is in no list). -/
def dateLineIndex (text : String) : Int :=
  match find_competition_date_line text with
  | some l => pyListIndex (splitLines text) l
  | none => -1

/-- `extract_header_info`: classify, locate the date line, recover its index,
and dispatch on the document type. The membership list in the source reads
`["Officials List", "Starting Order", "Result Summary"]`. -/
def extract_header_info (text : String) : HeaderResult :=
  if infer_document_type text = "Unknown" ∨ dateLineIndex text = -1 then
    HeaderResult.empty
  else if infer_document_type text = "Officials List" ∨
          infer_document_type text = "Starting Order" ∨
          infer_document_type text = "Result Summary" then
    match extract_event_sheets_header_info (splitLines text) (infer_document_type text)
            (dateLineIndex text) with
    | some h => HeaderResult.record h
    | none => HeaderResult.indexError
  else if infer_document_type text = "Detail Sheets" then
    match extract_detail_sheets_header_info (splitLines text) (infer_document_type text) with
    | some h => HeaderResult.record h
    | none => HeaderResult.indexError
  else HeaderResult.pyNone

/-! ## Rank validation (`is_valid_rank`)

Python `str.isdigit` and the `float(...)` constructor's accepted grammar
(optional sign; digit groups with underscore separators; optional fraction
and exponent; `inf`, `infinity`, `nan` case-insensitively; surrounding
whitespace). -/

/-- Python `str.isdigit` (ASCII digits). -/
def pyIsDigit (s : String) : Bool := !s.toList.isEmpty && s.toList.all Char.isDigit

/-- Consume the continuation of a digit group: further digits, possibly
with single underscores between digits. -/
def eatDigitGroup : List Char → List Char
  | '_' :: c :: r => if c.isDigit then eatDigitGroup r else '_' :: c :: r
  | c :: r => if c.isDigit then eatDigitGroup r else c :: r
  | [] => []

/-- Parse one digit group (at least one digit; underscores only between
digits); returns the remainder. -/
def parseDigitGroup (l : List Char) : Option (List Char) :=
  match l with
  | c :: r => if c.isDigit then some (eatDigitGroup r) else none
  | [] => none

/-- Parse the mantissa: `digits [ . [digits] ]` or `. digits`. -/
def parseMantissa (l : List Char) : Option (List Char) :=
  match parseDigitGroup l with
  | some r =>
    match r with
    | '.' :: r2 =>
      match parseDigitGroup r2 with
      | some r3 => some r3
      | none => some r2
    | _ => some r
  | none =>
    match l with
    | '.' :: r2 => parseDigitGroup r2
    | _ => none

/-- After the mantissa: end of string, or an exponent
(`e`/`E`, optional sign, digit group) consuming everything. -/
def parseExpEnd (l : List Char) : Bool :=
  match l with
  | [] => true
  | c :: r =>
    if c = 'e' || c = 'E' then
      match r with
      | s :: r2 =>
        if s = '+' || s = '-' then
          match parseDigitGroup r2 with
          | some [] => true
          | _ => false
        else
          match parseDigitGroup r with
          | some [] => true
          | _ => false
      | [] => false
    else false

/-- Case-insensitive comparison of a character list against a string. -/
def lowerEq (l : List Char) (s : String) : Bool := l.map Char.toLower == s.toList

/-- Python `float(s)` succeeds. -/
def pyFloatOk (s : String) : Bool :=
  let t := pyStripChars s.toList
  let u := match t with
           | c :: r => if c = '+' || c = '-' then r else t
           | [] => t
  if lowerEq u "inf" || lowerEq u "infinity" || lowerEq u "nan" then true
  else
    match parseMantissa u with
    | some r => parseExpEnd r
    | none => false

/-- `is_valid_rank`: all digits, the literal `WD`, or float-parseable. -/
def is_valid_rank (rank : String) : Bool :=
  if pyIsDigit rank || rank == "WD" then true else pyFloatOk rank

/-! ## Table normalizer -/

/-- A pandas DataFrame of string cells: column labels plus rows. -/
structure DataFrame where
  columns : List String
  rows : List (List String)
  deriving DecidableEq, Repr

/-- `row.astype(str).str.contains(kw).any()`: some cell of the row contains
the keyword as a substring. -/
def rowHasKeyword (row : List String) (kw : String) : Bool :=
  row.any (fun c => strContains c kw)

/-- `set_table_header`, with the side effect on the argument made explicit:
first component is the returned frame, second is the state of the caller's
frame after the call (its `columns` attribute is reassigned in place when a
header row is found; `df.drop` and the filter build fresh frames). -/
def set_table_header_full (df : DataFrame) (kw : String) : DataFrame × DataFrame :=
  match df.rows.findIdx? (fun row => rowHasKeyword row kw) with
  | some i =>
    ({ columns := df.rows.getD i [], rows := df.rows.drop (i + 1) },
     { columns := df.rows.getD i [], rows := df.rows })
  | none => (df, df)

/-- The value returned by `set_table_header`. -/
def set_table_header (df : DataFrame) (kw : String) : DataFrame :=
  (set_table_header_full df kw).1

/-- The state of the input frame after `set_table_header` returns. -/
def set_table_header_inputAfter (df : DataFrame) (kw : String) : DataFrame :=
  (set_table_header_full df kw).2

/-- `clean_results_table`: reposition the header on keyword `Rank`, then
keep rows whose `Rank` column is a valid rank. `df['Rank']` on a frame with
no `Rank` column raises `KeyError`, modelled as `Except.error`. Duplicate
column labels are modelled by first occurrence (not exercised here). -/
def clean_results_table (df : DataFrame) : Except String DataFrame :=
  match (set_table_header df "Rank").columns.findIdx? (fun c => c == "Rank") with
  | none => Except.error "KeyError: Rank"
  | some j =>
    Except.ok { columns := (set_table_header df "Rank").columns,
                rows := (set_table_header df "Rank").rows.filter
                  (fun r => is_valid_rank (r.getD j "")) }

/-- The state of the input frame after `clean_results_table` returns or
raises (the only in-place mutation is the one in `set_table_header`). -/
def clean_results_table_inputAfter (df : DataFrame) : DataFrame :=
  set_table_header_inputAfter df "Rank"

/-! ## Helper lemmas -/

/-- `List.find?` returns the topmost satisfying element. -/
theorem find_topmost {α : Type} (p : α → Bool) :
    ∀ (l : List α) (a : α), l.find? p = some a →
      ∃ i, i < l.length ∧ l[i]? = some a ∧ p a = true ∧
        ∀ j, j < i → ∀ b, l[j]? = some b → p b = false := by
  intro l
  induction l with
  | nil => intro a h; simp [List.find?] at h
  | cons x xs ih =>
    intro a h
    by_cases hx : p x = true
    · rw [List.find?_cons_of_pos _ hx] at h
      have hxa : x = a := Option.some.inj h
      exact ⟨0, by simp, by simp [hxa], hxa ▸ hx, by intro j hj; omega⟩
    · have hx' : p x = false := by revert hx; cases p x <;> simp
      rw [List.find?_cons_of_neg _ (by simp [hx'])] at h
      obtain ⟨i, hi, hget, hpa, hmin⟩ := ih a h
      refine ⟨i + 1, by simpa using hi, by simpa using hget, hpa, ?_⟩
      intro j hj b hb
      match j with
      | 0 =>
        have hbx : x = b := by simpa using hb
        rw [← hbx]; exact hx'
      | j' + 1 => exact hmin j' (by omega) b (by simpa using hb)

/-- A list starts with itself, whatever follows. -/
theorem isPrefixOf_append_self {α : Type} [BEq α] [LawfulBEq α] (l r : List α) :
    l.isPrefixOf (l ++ r) = true := by
  induction l with
  | nil => simp [List.isPrefixOf]
  | cons a as ih => simp [List.isPrefixOf, ih]

/-- Any middle factor is found by the substring test. -/
theorem strContains_append (t1 m t2 : String) :
    strContains (t1 ++ m ++ t2) m = true := by
  unfold strContains
  rw [List.any_eq_true]
  have htl : (t1 ++ m ++ t2).toList = t1.toList ++ (m.toList ++ t2.toList) := by
    show (t1 ++ m ++ t2).data = t1.data ++ (m.data ++ t2.data)
    rw [String.data_append, String.data_append, List.append_assoc]
  refine ⟨t1.toList.length, ?_, ?_⟩
  · rw [List.mem_range, htl]
    simp [List.length_append]
    omega
  · rw [htl, List.drop_left]
    exact isPrefixOf_append_self m.toList t2.toList

/-- Python indexing at a nonnegative in-range position is plain list access. -/
theorem pyGetStr_nat (l : List String) (k : Nat) (hk : k < l.length) :
    pyGetStr l (k : Int) = some (l.getD k "") := by
  unfold pyGetStr
  rw [if_pos (Int.natCast_nonneg k)]
  rw [List.getD_eq_getElem?_getD, List.getElem?_eq_getElem hk]
  simp

/-- Python slicing to a nonnegative bound is `List.take`. -/
theorem pySliceTo_nat (l : List String) (k : Nat) :
    pySliceTo l (k : Int) = l.take k := by
  unfold pySliceTo
  rw [if_neg (by omega)]
  simp

/-- Rows in which every cell fails the substring test are skipped by the
header-row scan. -/
theorem findIdx_keyword_none (df : DataFrame)
    (h : ∀ row ∈ df.rows, ∀ c ∈ row, strContains c "Rank" = false) :
    df.rows.findIdx? (fun row => rowHasKeyword row "Rank") = none := by
  apply List.findIdx?_eq_none_iff.mpr
  intro row hrow
  unfold rowHasKeyword
  rw [List.any_eq_false]
  intro c hc
  simp [h row hrow c hc]

/-- When the repositioned frame has no column labelled `Rank`, the rank
filter raises `KeyError`. -/
theorem clean_results_table_error (df : DataFrame)
    (h : (set_table_header df "Rank").columns.findIdx? (fun c => c == "Rank") = none) :
    clean_results_table df = Except.error "KeyError: Rank" := by
  unfold clean_results_table
  rw [h]

/-! ## Claims -/

/-- Claim C1 (code bug): for a document classified `Category Result Summary`
with a date line found, `extract_header_info` does NOT apply the event-sheet
layout: its membership test lists the string `"Result Summary"`, which the
classifier never produces, so the function falls through every branch and
returns Python `None` instead of a header record. This theorem evaluates the
embedded code at a failing input. -/
theorem c1_category_result_summary_returns_none :
    infer_document_type
        "Champs\nToronto\nJuly 14, 2024\nJunior Women\nCategory Result Summary" =
      "Category Result Summary" ∧
    find_competition_date_line
        "Champs\nToronto\nJuly 14, 2024\nJunior Women\nCategory Result Summary" =
      some "July 14, 2024" ∧
    extract_header_info
        "Champs\nToronto\nJuly 14, 2024\nJunior Women\nCategory Result Summary" =
      HeaderResult.pyNone := by
  refine ⟨by decide, by decide, by decide⟩

/-- Claim C3, counterexample: a grid in which no cell contains `Rank`
satisfies the claim's precondition, yet the full normalizer raises
`KeyError` instead of returning the grid unchanged. -/
theorem c3_counterexample :
    [["a","b"],["c","d"]].all (fun row => row.all (fun c => !(strContains c "Rank"))) = true ∧
    clean_results_table { columns := ["0","1"], rows := [["a","b"],["c","d"]] } =
      Except.error "KeyError: Rank" :=
  ⟨by decide, by rfl⟩

/-- Claim C3, amended: when no row has any cell containing `Rank`, header
repositioning alone is a total no-op returning the grid unchanged, but the
full normalizer then fails with a `Rank` lookup error whenever the grid's
pre-existing column labels do not include `Rank`. -/
theorem c3_no_rank_keyword_amended (df : DataFrame)
    (h : ∀ row ∈ df.rows, ∀ c ∈ row, strContains c "Rank" = false) :
    set_table_header df "Rank" = df ∧
    ("Rank" ∉ df.columns → clean_results_table df = Except.error "KeyError: Rank") := by
  have hsth : set_table_header df "Rank" = df := by
    unfold set_table_header set_table_header_full
    rw [findIdx_keyword_none df h]
  refine ⟨hsth, ?_⟩
  intro hcol
  apply clean_results_table_error
  rw [hsth]
  apply List.findIdx?_eq_none_iff.mpr
  intro x hx
  have hne : x ≠ "Rank" := fun he => hcol (he ▸ hx)
  simp [hne]

/-- Witness for C3's amended theorem at a concrete grid. -/
theorem c3_no_rank_keyword_amended_witness :
    set_table_header { columns := ["0","1"], rows := [["a","b"]] } "Rank" =
      { columns := ["0","1"], rows := [["a","b"]] } ∧
    clean_results_table { columns := ["0","1"], rows := [["a","b"]] } =
      Except.error "KeyError: Rank" := by
  have h := c3_no_rank_keyword_amended
    { columns := ["0","1"], rows := [["a","b"]] } (by decide)
  exact ⟨h.1, h.2 (by decide)⟩

/-- Claim C4, counterexample: the normalizer is not read-only — when a
header row is found, the caller's frame has its column labels reassigned in
place, so after the call the input differs from its original value. -/
theorem c4_counterexample :
    clean_results_table_inputAfter
        { columns := ["0","1"], rows := [["Rank","Name"],["1","A"]] } ≠
      { columns := ["0","1"], rows := [["Rank","Name"],["1","A"]] } := by decide

/-- Claim C4, amended: the input's cells and rows are never mutated, and
when no cell contains the keyword `Rank` the input is completely unchanged;
only the input's column labels are overwritten (with the adopted header
row's cells) when a header row is found. -/
theorem c4_input_mutation_amended (df : DataFrame) :
    (clean_results_table_inputAfter df).rows = df.rows ∧
    ((∀ row ∈ df.rows, ∀ c ∈ row, strContains c "Rank" = false) →
      clean_results_table_inputAfter df = df) := by
  constructor
  · unfold clean_results_table_inputAfter set_table_header_inputAfter set_table_header_full
    cases hfi : df.rows.findIdx? (fun row => rowHasKeyword row "Rank") with
    | none => rfl
    | some i => rfl
  · intro h
    unfold clean_results_table_inputAfter set_table_header_inputAfter set_table_header_full
    rw [findIdx_keyword_none df h]

/-- Witness for C4's amended theorem at a concrete grid. -/
theorem c4_input_mutation_amended_witness :
    clean_results_table_inputAfter { columns := ["0"], rows := [["x"]] } =
      { columns := ["0"], rows := [["x"]] } :=
  (c4_input_mutation_amended { columns := ["0"], rows := [["x"]] }).2 (by decide)

/-- Claim C6: any text containing the substring `Officials List` is
classified `Officials List`, no matter what surrounds it (so no matter which
other marker phrases occur anywhere in the text) — the classifier's
first-match-wins priority puts `Officials List` first. -/
theorem c6_officials_list_priority (t1 t2 : String) :
    infer_document_type (t1 ++ "Officials List" ++ t2) = "Officials List" := by
  unfold infer_document_type
  rw [if_pos (strContains_append t1 "Officials List" t2)]

/-- Claim C8: a date expression with a single month name, a single day and a
4-digit year and no range tokens matches the written-month pattern, and the
locator returns such a line when it is among the first 10 lines. -/
theorem c8_single_month_date_matches :
    datePattern1Search ("July 14, 2024".toList) = true ∧
    find_competition_date_line "Spring Classic\nToronto\nJuly 14, 2024\nSenior Women" =
      some "July 14, 2024" := by
  refine ⟨by decide, by decide⟩

/-- Claim C9: `is_valid_rank` on the five specified examples, and in general
it accepts exactly the all-digit strings, the literal `WD`, and the strings
Python's `float` accepts. -/
theorem c9_is_valid_rank_spec :
    (is_valid_rank "5" = true ∧ is_valid_rank "WD" = true ∧
     is_valid_rank "5.5" = true ∧ is_valid_rank "DNS" = false ∧
     is_valid_rank "" = false) ∧
    ∀ r, is_valid_rank r = (pyIsDigit r || r == "WD" || pyFloatOk r) := by
  refine ⟨by decide, ?_⟩
  intro r
  unfold is_valid_rank
  cases hd : pyIsDigit r <;> cases hw : r == "WD" <;> simp [hd, hw]

/-- Claim C10: when the first row containing `Rank` does so only inside a
longer cell (no cell equals `Rank` exactly), `set_table_header` still adopts
that row as the header, and `clean_results_table` then fails with the `Rank`
lookup error instead of returning a table. -/
theorem c10_substring_header_then_keyerror (df : DataFrame) (i : Nat)
    (hfind : df.rows.findIdx? (fun row => rowHasKeyword row "Rank") = some i)
    (hne : ∀ c ∈ df.rows.getD i [], c ≠ "Rank") :
    (set_table_header df "Rank").columns = df.rows.getD i [] ∧
    clean_results_table df = Except.error "KeyError: Rank" := by
  have hsth : set_table_header df "Rank" =
      { columns := df.rows.getD i [], rows := df.rows.drop (i + 1) } := by
    unfold set_table_header set_table_header_full
    rw [hfind]
  have hcidx : (df.rows.getD i []).findIdx? (fun c => c == "Rank") = none := by
    apply List.findIdx?_eq_none_iff.mpr
    intro x hx
    simp [hne x hx]
  refine ⟨by rw [hsth], ?_⟩
  apply clean_results_table_error
  rw [hsth]
  exact hcidx

/-- Witness for C10 at a concrete grid whose first row holds `Ranking`. -/
theorem c10_substring_header_then_keyerror_witness :
    (set_table_header { columns := ["0","1"], rows := [["Ranking","Name"],["1","A"]] }
        "Rank").columns = ["Ranking","Name"] ∧
    clean_results_table { columns := ["0","1"], rows := [["Ranking","Name"],["1","A"]] } =
      Except.error "KeyError: Rank" := by
  have h := c10_substring_header_then_keyerror
    { columns := ["0","1"], rows := [["Ranking","Name"],["1","A"]] } 0 (by decide) (by decide)
  refine ⟨?_, h.2⟩
  rw [h.1]
  rfl

/-- Claim C5: for an event-sheet document with date-line index `n` (with
`lines[n-1]` and `lines[n+1]` in range), the assembled header takes
Location from `lines[n-1]`, DateRange from `lines[n]`, Event from
`lines[n+1]` — each verbatim apart from edge-whitespace trimming — and
CompetitionName as the trimmed space-join of all lines strictly before
index `n - 1`. -/
theorem c5_event_sheet_fields (lines : List String) (document_type : String) (n : Nat)
    (h1 : 1 ≤ n) (h2 : n + 1 < lines.length) :
    extract_event_sheets_header_info lines document_type (n : Int) =
      some { competitionName := pyStrip (String.intercalate " " (lines.take (n - 1)))
             location := pyStrip (lines.getD (n - 1) "")
             dateRange := pyStrip (lines.getD n "")
             event := pyStrip (lines.getD (n + 1) "")
             documentType := document_type } := by
  have e1 : (n : Int) - 1 = ((n - 1 : Nat) : Int) := by omega
  have e2 : (n : Int) + 1 = ((n + 1 : Nat) : Int) := by omega
  unfold extract_event_sheets_header_info
  rw [e1, e2, pyGetStr_nat lines (n - 1) (by omega), pyGetStr_nat lines n (by omega),
      pyGetStr_nat lines (n + 1) (by omega), pySliceTo_nat]

/-- Witness for C5 at a concrete four-line document with date line at 2. -/
theorem c5_event_sheet_fields_witness :
    extract_event_sheets_header_info ["A","B","C","D"] "Starting Order" 2 =
      some { competitionName := "A", location := "B", dateRange := "C",
             event := "D", documentType := "Starting Order" } := by
  have h := c5_event_sheet_fields ["A","B","C","D"] "Starting Order" 2 (by decide) (by decide)
  exact h.trans (by decide)

/-- Claim C7: if no line among the first 10 matches a date pattern the
locator returns `None`; and when it returns a line, that line matches, it is
the topmost matching line, and its position is within
`[0, min(10, lineCount) - 1]` — lines at index 10 or beyond are never
returned. -/
theorem c7_date_locator_window (text : String) :
    ((∀ l ∈ (splitLines text).take 10, lineMatchesDate l = false) →
      find_competition_date_line text = none) ∧
    (∀ l, find_competition_date_line text = some l →
      lineMatchesDate l = true ∧
      ∃ i, i < min 10 (splitLines text).length ∧
        (splitLines text)[i]? = some l ∧
        ∀ j, j < i → ∀ l', (splitLines text)[j]? = some l' →
          lineMatchesDate l' = false) := by
  constructor
  · intro h
    unfold find_competition_date_line
    rw [List.find?_eq_none]
    intro x hx
    simp [h x hx]
  · intro l hfind
    refine ⟨List.find?_some hfind, ?_⟩
    obtain ⟨i, hi, hget, _, hmin⟩ := find_topmost lineMatchesDate _ l hfind
    rw [List.length_take] at hi
    have hi10 : i < 10 := by omega
    refine ⟨i, by omega, ?_, ?_⟩
    · rw [← hget, List.getElem?_take, if_pos hi10]
    · intro j hj l' hget'
      refine hmin j hj l' ?_
      rw [List.getElem?_take, if_pos (by omega)]
      exact hget'

/-- Witness for C7 on a text with no date in its lines. -/
theorem c7_date_locator_window_witness :
    find_competition_date_line "abc\ndef" = none :=
  (c7_date_locator_window "abc\ndef").1 (by decide)

/-- Claim C2, counterexample: a Detail Sheets document with at least 4 lines
but no date line in its first 10 lines makes `extract_header_info` return
the empty record, not the fixed positional record — the detail-sheet result
is NOT independent of date-line detection. -/
theorem c2_counterexample :
    infer_document_type "Comp\nNothing\nCity\nElement Score Sheet" = "Detail Sheets" ∧
    4 ≤ (splitLines "Comp\nNothing\nCity\nElement Score Sheet").length ∧
    find_competition_date_line "Comp\nNothing\nCity\nElement Score Sheet" = none ∧
    extract_header_info "Comp\nNothing\nCity\nElement Score Sheet" = HeaderResult.empty ∧
    HeaderResult.empty ≠ HeaderResult.record
      { competitionName := "Comp", location := "City", dateRange := "Nothing",
        event := "Element Score Sheet", documentType := "Detail Sheets" } := by
  refine ⟨by decide, by decide, by decide, by decide, by decide⟩

/-- Claim C2, amended: for a Detail Sheets document with at least 4 lines,
`extract_header_info` returns the fixed positional record only when the
date-line locator found a line; when no date line is found it returns the
empty record instead. -/
theorem c2_detail_sheets_amended (text : String)
    (hdt : infer_document_type text = "Detail Sheets") :
    (∀ ldate, find_competition_date_line text = some ldate →
      4 ≤ (splitLines text).length →
      extract_header_info text = HeaderResult.record
        { competitionName := pyStrip ((splitLines text).getD 0 "")
          location := pyStrip ((splitLines text).getD 2 "")
          dateRange := pyStrip ((splitLines text).getD 1 "")
          event := pyStrip ((splitLines text).getD 3 "")
          documentType := "Detail Sheets" }) ∧
    (find_competition_date_line text = none →
      extract_header_info text = HeaderResult.empty) := by
  constructor
  · intro ldate hfind hlen
    have hmem : ldate ∈ splitLines text :=
      List.mem_of_mem_take (List.mem_of_find?_eq_some hfind)
    have hidx : dateLineIndex text ≠ -1 := by
      unfold dateLineIndex
      rw [hfind]
      show pyListIndex (splitLines text) ldate ≠ -1
      unfold pyListIndex
      have hsome : ((splitLines text).findIdx? (fun y => y == ldate)).isSome := by
        rw [List.findIdx?_isSome, List.any_eq_true]
        exact ⟨ldate, hmem, by simp⟩
      cases hfi : (splitLines text).findIdx? (fun y => y == ldate) with
      | none => rw [hfi] at hsome; simp at hsome
      | some i =>
        show (i : Int) ≠ -1
        omega
    have h0 := pyGetStr_nat (splitLines text) 0 (by omega)
    have h1 := pyGetStr_nat (splitLines text) 1 (by omega)
    have h2 := pyGetStr_nat (splitLines text) 2 (by omega)
    have h3 := pyGetStr_nat (splitLines text) 3 (by omega)
    simp only [Nat.cast_zero, Nat.cast_one, Nat.cast_ofNat] at h0 h1 h2 h3
    have hdetail : extract_detail_sheets_header_info (splitLines text) "Detail Sheets" =
        some { competitionName := pyStrip ((splitLines text).getD 0 "")
               location := pyStrip ((splitLines text).getD 2 "")
               dateRange := pyStrip ((splitLines text).getD 1 "")
               event := pyStrip ((splitLines text).getD 3 "")
               documentType := "Detail Sheets" } := by
      unfold extract_detail_sheets_header_info
      rw [h0, h1, h2, h3]
    unfold extract_header_info
    rw [hdt, if_neg (not_or.mpr ⟨by decide, hidx⟩), if_neg (by decide), if_pos rfl, hdetail]
  · intro hnone
    unfold extract_header_info
    have hidx : dateLineIndex text = -1 := by
      unfold dateLineIndex
      rw [hnone]
    rw [if_pos (Or.inr hidx)]

/-- Witness for C2's amended theorem at a concrete Detail Sheets text with a
date line present. -/
theorem c2_detail_sheets_amended_witness :
    extract_header_info "Comp\nJuly 14, 2024\nCity\nElement Score Sheet" =
      HeaderResult.record
        { competitionName := "Comp", location := "City",
          dateRange := "July 14, 2024", event := "Element Score Sheet",
          documentType := "Detail Sheets" } := by
  have h := (c2_detail_sheets_amended "Comp\nJuly 14, 2024\nCity\nElement Score Sheet"
      (by decide)).1 "July 14, 2024" (by decide) (by decide)
  exact h.trans (by decide)
